import Mathlib

/-!
# Verification of the tour API client (`src/lib/api/tour-api.ts`)

A shallow embedding of the external-API client layer of the repository:
`getApiKey`, the query construction and parameter filtering inside
`fetchTourApi`, the response-envelope handling (HTTP status check,
`resultCode` check, normalization of the polymorphic `items.item` field),
and the endpoint functions `getAreaCode`, `getAreaBasedList`,
`searchKeyword`, `getTourDetail`.

JavaScript dynamic values that the code inspects (truthiness, arrays,
object spread with key override) are modelled explicitly: `JVal` is a
JSON value with JavaScript truthiness, `ParamVal` is the
`string | number | undefined` (plus `null`, which the filter also checks)
parameter value type, and the object literal
`{serviceKey, ...COMMON_PARAMS, ...filtered}` is modelled by an
insertion-ordered association list where a later binding of the same key
overwrites the earlier value in place, exactly as JavaScript object
spread does.

The network is modelled as a function from attempt index to outcome, so
that statements about "the response on the n-th attempt" can be made; the
client, as written, performs a single fetch.
-/

namespace TourApi

/-- A JSON / JavaScript runtime value, as far as the client inspects it:
`body.items.item` may be `undefined`, `null`, a primitive, an object or an
array. -/
inductive JVal where
  | undef : JVal
  | null : JVal
  | bool (b : Bool) : JVal
  | num (n : Int) : JVal
  | str (s : String) : JVal
  | obj (fields : List (String × JVal)) : JVal
  | arr (elems : List JVal) : JVal

/-- JavaScript truthiness: `undefined`, `null`, `false`, `0`, and `""` are
falsy; every object and array (even empty) is truthy. -/
def jsTruthy : JVal → Bool
  | .undef => false
  | .null => false
  | .bool b => b
  | .num n => n != 0
  | .str s => s != ""
  | .obj _ => true
  | .arr _ => true

/-- `Array.isArray(v)`. -/
def isArray : JVal → Bool
  | .arr _ => true
  | _ => false

/-- `Array.isArray(items) ? items : items ? [items] : []`
(tour-api.ts, line 123). -/
def normalizeItems (items : JVal) : List JVal :=
  match items with
  | .arr xs => xs
  | v => if jsTruthy v then [v] else []

/-- A call-specific parameter value: the TypeScript type is
`string | number | undefined`; the filter additionally tests `null`, so the
model includes it. All numeric parameters of the source (`pageNo`,
`numOfRows`) are natural numbers. -/
inductive ParamVal where
  | str (s : String) : ParamVal
  | num (n : Nat) : ParamVal
  | undef : ParamVal
  | nullv : ParamVal
deriving DecidableEq

/-- The filter predicate of tour-api.ts line 78:
`value !== undefined && value !== null && value !== ""`. -/
def keepParam (v : ParamVal) : Bool :=
  v != ParamVal.undef && v != ParamVal.nullv && v != ParamVal.str ""

/-- String coercion applied by `URLSearchParams` to each record value:
`String(value)`. -/
def stringifyVal : ParamVal → String
  | .str s => s
  | .num n => Nat.repr n
  | .undef => "undefined"
  | .nullv => "null"

/-- Setting a key on a JavaScript object literal: if the key is present its
value is replaced in place (insertion order kept), otherwise the binding is
appended. -/
def objSet (o : List (String × String)) (k v : String) : List (String × String) :=
  if o.any (fun p => p.1 = k) then
    o.map (fun p => if p.1 = k then (k, v) else p)
  else
    o ++ [(k, v)]

/-- Building a JavaScript object from a sequence of key/value entries
(object literal with spreads): later entries override earlier ones. -/
def objOfEntries (l : List (String × String)) : List (String × String) :=
  l.foldl (fun o p => objSet o p.1 p.2) []

/-- Property lookup on the (duplicate-free) association list representing a
JavaScript object. -/
def objLookup (k : String) : List (String × String) → Option String
  | [] => none
  | p :: t => if p.1 = k then some p.2 else objLookup k t

/-- The value of the LAST entry with key `k` in an entry list — the value
that object-literal construction assigns to `k`. -/
def lastLookup (k : String) : List (String × String) → Option String
  | [] => none
  | p :: t =>
    match lastLookup k t with
    | some v => some v
    | none => if p.1 = k then some p.2 else none

/-- `COMMON_PARAMS` of tour-api.ts (lines 44-48), in insertion order. -/
def COMMON_PARAMS : List (String × String) :=
  [("MobileOS", "ETC"), ("MobileApp", "MyTrip"), ("_type", "json")]

/-- The entry sequence of the object literal
`{serviceKey: apiKey, ...COMMON_PARAMS, ...Object.fromEntries(filtered)}`
(tour-api.ts, lines 74-82): the filtered call-specific entries come last
and therefore override on key collision. -/
def paramEntries (apiKey : String) (params : List (String × ParamVal)) :
    List (String × String) :=
  ("serviceKey", apiKey) :: COMMON_PARAMS ++
    (params.filter (fun p => keepParam p.2)).map (fun p => (p.1, stringifyVal p.2))

/-- The record handed to `URLSearchParams`, i.e. the serialized query as an
ordered list of key/value pairs. -/
def buildSearchParams (apiKey : String) (params : List (String × ParamVal)) :
    List (String × String) :=
  objOfEntries (paramEntries apiKey params)

/-- The process environment: the two credential variables
`NEXT_PUBLIC_TOUR_API_KEY` and `TOUR_API_KEY`. -/
structure Env where
  nextPublicTourApiKey : Option String
  tourApiKey : Option String

/-- JavaScript `a || b` on `string | undefined` operands: yields `b` when
`a` is falsy (absent or empty). -/
def jsOrString (a b : Option String) : Option String :=
  match a with
  | some s => if s = "" then b else some s
  | none => b

/-- The classified failures the client can raise, mirroring the `Error`
objects thrown by tour-api.ts: a missing credential, an HTTP error status
(`error.status`), an API-level error envelope (`error.apiCode` and
`resultMsg`), a transport failure (`isNetworkError`), a JavaScript type
error on a malformed success envelope, an input-validation failure at an
endpoint function, and the empty detail lookup. -/
inductive TourApiError where
  | missingApiKey : TourApiError
  | httpStatus (status : Nat) : TourApiError
  | apiError (code msg : String) : TourApiError
  | networkError : TourApiError
  | typeError : TourApiError
  | validationError (msg : String) : TourApiError
  | notFoundError (contentId : String) : TourApiError
deriving DecidableEq

/-- `getApiKey` (tour-api.ts, lines 54-64):
`const key = process.env.NEXT_PUBLIC_TOUR_API_KEY || process.env.TOUR_API_KEY;
if (!key) throw ...`. -/
def getApiKey (env : Env) : Except TourApiError String :=
  match jsOrString env.nextPublicTourApiKey env.tourApiKey with
  | none => .error .missingApiKey
  | some s => if s = "" then .error .missingApiKey else .ok s

/-- The `response.header` of the API envelope. -/
structure ResponseHeader where
  resultCode : String
  resultMsg : String

/-- The `response.body` of a success envelope; `item` is the value of
`body.items.item`, which may have any JSON shape. -/
structure ResponseBody where
  item : JVal
  numOfRows : Nat
  pageNo : Nat
  totalCount : Nat

/-- A parsed envelope `{response: {header, body?}}`; error envelopes carry
no body. -/
structure Envelope where
  header : ResponseHeader
  body : Option ResponseBody

/-- An HTTP response: a status code and, when read, the parsed JSON
envelope. -/
structure HttpResponse where
  status : Nat
  json : Envelope

/-- The outcome of one `fetch` call: a transport failure (a `TypeError`
whose message mentions `fetch`) or an HTTP response. -/
inductive FetchOutcome where
  | networkFailure : FetchOutcome
  | response (r : HttpResponse) : FetchOutcome

/-- A request actually issued by the client: the endpoint path and the
serialized query. -/
structure Request where
  endpoint : String
  query : List (String × String)
deriving DecidableEq

/-- The observable trace of one logical call: its result, the requests that
were sent over the network, and the backoff sleeps performed (the source
performs none). -/
structure CallTrace (α : Type) where
  result : Except TourApiError α
  requests : List Request
  sleeps : List Nat

/-- Processing of a received HTTP response (tour-api.ts, lines 99-128):
reject a non-ok status (`response.ok` is `200 ≤ status ≤ 299`), then
reject a non-`"0000"` `resultCode` without reading the body, then
normalize `body.items.item`. A success envelope without a body makes the
JavaScript property access throw a `TypeError`. -/
def processResponse (r : HttpResponse) : Except TourApiError (List JVal) :=
  if 200 ≤ r.status ∧ r.status ≤ 299 then
    if r.json.header.resultCode ≠ "0000" then
      .error (.apiError r.json.header.resultCode r.json.header.resultMsg)
    else
      match r.json.body with
      | none => .error .typeError
      | some b => .ok (normalizeItems b.item)
  else
    .error (.httpStatus r.status)

/-- `fetchTourApi` (tour-api.ts, lines 69-145): resolve the credential,
build the query, perform ONE fetch (the source contains no retry loop and
no backoff sleep), and classify the outcome. `server n` is the outcome the
n-th fetch attempt would observe; the client only ever consumes
`server 0`. -/
def fetchTourApi (env : Env) (endpoint : String)
    (params : List (String × ParamVal)) (server : Nat → FetchOutcome) :
    CallTrace (List JVal) :=
  match getApiKey env with
  | .error e => ⟨.error e, [], []⟩
  | .ok apiKey =>
    let query := buildSearchParams apiKey params
    match server 0 with
    | .networkFailure => ⟨.error .networkError, [⟨endpoint, query⟩], []⟩
    | .response r => ⟨processResponse r, [⟨endpoint, query⟩], []⟩

/-- An optional parameter added by `if (x) params.k = x` — the assignment
happens only when the value is truthy (a non-empty string). -/
def optionalParam (k : String) : Option String → List (String × ParamVal)
  | some s => if s = "" then [] else [(k, ParamVal.str s)]
  | none => []

/-- `getAreaCode` (tour-api.ts, lines 152-159). -/
def getAreaCode (env : Env) (server : Nat → FetchOutcome)
    (areaCode : Option String) : CallTrace (List JVal) :=
  fetchTourApi env "/areaCode2" (optionalParam "areaCode" areaCode) server

/-- `getAreaBasedList` (tour-api.ts, lines 170-189); `pageNo` and
`numOfRows` default to 1 and 20 at the TypeScript call sites. -/
def getAreaBasedList (env : Env) (server : Nat → FetchOutcome)
    (areaCode contentTypeId : Option String) (pageNo numOfRows : Nat) :
    CallTrace (List JVal) :=
  fetchTourApi env "/areaBasedList2"
    ([("pageNo", ParamVal.num pageNo), ("numOfRows", ParamVal.num numOfRows)] ++
      optionalParam "areaCode" areaCode ++
      optionalParam "contentTypeId" contentTypeId)
    server

/-- Models JavaScript `String.prototype.trim`: strip leading and trailing
whitespace. -/
def jsTrim (s : String) : String :=
  List.asString
    (((s.data.dropWhile Char.isWhitespace).reverse.dropWhile
        Char.isWhitespace).reverse)

/-- `searchKeyword` (tour-api.ts, lines 200-226): rejects an absent or
blank keyword before any network activity, then sends the trimmed
keyword. -/
def searchKeyword (env : Env) (server : Nat → FetchOutcome)
    (keyword : String) (areaCode contentTypeId : Option String)
    (pageNo numOfRows : Nat) : CallTrace (List JVal) :=
  if keyword = "" ∨ jsTrim keyword = "" then
    ⟨.error (.validationError "검색 키워드를 입력해주세요."), [], []⟩
  else
    fetchTourApi env "/searchKeyword2"
      ([("keyword", ParamVal.str (jsTrim keyword)),
        ("pageNo", ParamVal.num pageNo),
        ("numOfRows", ParamVal.num numOfRows)] ++
        optionalParam "areaCode" areaCode ++
        optionalParam "contentTypeId" contentTypeId)
      server

/-- `getTourDetail` (tour-api.ts, lines 233-249): rejects an empty
`contentId` before any network activity; on a successful but empty list
raises the not-found error; otherwise returns the first element. -/
def getTourDetail (env : Env) (server : Nat → FetchOutcome)
    (contentId : String) : CallTrace JVal :=
  if contentId = "" then
    ⟨.error (.validationError "콘텐츠 ID가 필요합니다."), [], []⟩
  else
    let t := fetchTourApi env "/detailCommon2"
      [("contentId", ParamVal.str contentId)] server
    match t.result with
    | .error e => ⟨.error e, t.requests, t.sleeps⟩
    | .ok [] => ⟨.error (.notFoundError contentId), t.requests, t.sleeps⟩
    | .ok (x :: _) => ⟨.ok x, t.requests, t.sleeps⟩

/-! ## Concrete fixtures used by witnesses and counterexamples -/

/-- An environment with the public credential variable set. -/
def testEnv : Env := ⟨some "TESTKEY", none⟩

/-- The success body of the spec scenario:
`{items:{item:{id:"A1"}}, numOfRows:1, pageNo:1, totalCount:1}`. -/
def okBody : ResponseBody := ⟨JVal.obj [("id", JVal.str "A1")], 1, 1, 1⟩

/-- A success envelope with result code `"0000"` and the scenario body. -/
def okEnvelope : Envelope := ⟨⟨"0000", "OK"⟩, some okBody⟩

/-- A server that answers the first three attempts with HTTP 503 and every
later attempt with HTTP 200 and the scenario success envelope. -/
def server503x3 : Nat → FetchOutcome := fun i =>
  if i < 3 then .response ⟨503, ⟨⟨"0000", "OK"⟩, none⟩⟩
  else .response ⟨200, okEnvelope⟩

/-- A server that always answers HTTP 200 with the scenario envelope. -/
def serverOk : Nat → FetchOutcome := fun _ => .response ⟨200, okEnvelope⟩

/-- A server that always answers HTTP 404. -/
def server404 : Nat → FetchOutcome := fun _ =>
  .response ⟨404, ⟨⟨"0000", "OK"⟩, none⟩⟩

/-- A server that always answers HTTP 200 with an error envelope carrying
result code `INVALID_REQUEST_PARAMETER_ERROR` and no body. -/
def serverApiError : Nat → FetchOutcome := fun _ =>
  .response ⟨200, ⟨⟨"INVALID_REQUEST_PARAMETER_ERROR", "파라미터 오류"⟩, none⟩⟩

/-- A server that always answers HTTP 200 with a success envelope whose
`items.item` field is absent (zero items). -/
def serverEmptyItems : Nat → FetchOutcome := fun _ =>
  .response ⟨200, ⟨⟨"0000", "OK"⟩, some ⟨JVal.undef, 0, 1, 0⟩⟩⟩

/-- A server that always answers HTTP 200 with a success envelope whose
`items.item` field is the empty string, as the upstream service sends for
zero results. -/
def serverItemEmptyStr : Nat → FetchOutcome := fun _ =>
  .response ⟨200, ⟨⟨"0000", "OK"⟩, some ⟨JVal.str "", 0, 1, 0⟩⟩⟩

/-! ## Helper lemmas about objects built from entry lists -/

theorem mem_objSet {o : List (String × String)} {k v : String}
    {kv : String × String} (h : kv ∈ objSet o k v) :
    kv ∈ o ∨ kv = (k, v) := by
  unfold objSet at h
  split at h
  · rcases List.mem_map.mp h with ⟨p, hp, hpe⟩
    by_cases hk : p.1 = k
    · right; simp [hk] at hpe; exact hpe.symm
    · left
      rw [if_neg hk] at hpe
      exact hpe ▸ hp
  · rcases List.mem_append.mp h with h | h
    · exact Or.inl h
    · right; simpa using h

theorem mem_foldl_objSet {l : List (String × String)} :
    ∀ {o : List (String × String)} {kv : String × String},
    kv ∈ l.foldl (fun o p => objSet o p.1 p.2) o → kv ∈ o ∨ kv ∈ l := by
  induction l with
  | nil => intro o kv h; exact Or.inl h
  | cons q t ih =>
    intro o kv h
    rcases ih h with h' | h'
    · rcases mem_objSet h' with h'' | h''
      · exact Or.inl h''
      · exact Or.inr (by simp [h''])
    · exact Or.inr (List.mem_cons_of_mem _ h')

theorem mem_objOfEntries {l : List (String × String)} {kv : String × String}
    (h : kv ∈ objOfEntries l) : kv ∈ l := by
  rcases mem_foldl_objSet h with h' | h'
  · simp at h'
  · exact h'

theorem objLookup_map_ne {o : List (String × String)} {k k' v' : String}
    (hne : k' ≠ k) :
    objLookup k (o.map (fun p => if p.1 = k' then (k', v') else p)) =
      objLookup k o := by
  induction o with
  | nil => rfl
  | cons p t ih =>
    by_cases hp : p.1 = k'
    · simp only [List.map_cons, hp, if_pos rfl, objLookup]
      rw [if_neg hne, if_neg (hp ▸ hne), ih]
    · simp only [List.map_cons, if_neg hp, objLookup]
      split
      · rfl
      · exact ih

theorem objLookup_map_self {o : List (String × String)} {k v' : String}
    (h : o.any (fun p => p.1 = k) = true) :
    objLookup k (o.map (fun p => if p.1 = k then (k, v') else p)) =
      some v' := by
  induction o with
  | nil => simp at h
  | cons p t ih =>
    by_cases hp : p.1 = k
    · simp [List.map_cons, hp, objLookup]
    · simp only [List.any_cons, decide_eq_true_eq, hp, false_or] at h
      simp only [List.map_cons, if_neg hp, objLookup, if_neg hp]
      exact ih h

theorem objLookup_append_single_ne {o : List (String × String)}
    {k k' v' : String} (hne : k' ≠ k) :
    objLookup k (o ++ [(k', v')]) = objLookup k o := by
  induction o with
  | nil => simp [objLookup, hne]
  | cons p t ih =>
    simp only [List.cons_append, objLookup]
    split
    · rfl
    · exact ih

theorem objLookup_append_single_self {o : List (String × String)}
    {k v' : String} (h : ∀ p ∈ o, p.1 ≠ k) :
    objLookup k (o ++ [(k, v')]) = some v' := by
  induction o with
  | nil => simp [objLookup]
  | cons p t ih =>
    have hp : p.1 ≠ k := h p (List.mem_cons_self _ _)
    simp only [List.cons_append, objLookup, if_neg hp]
    exact ih (fun q hq => h q (List.mem_cons_of_mem _ hq))

theorem objLookup_objSet_ne {o : List (String × String)} {k k' v' : String}
    (hne : k' ≠ k) : objLookup k (objSet o k' v') = objLookup k o := by
  unfold objSet
  split
  · exact objLookup_map_ne hne
  · exact objLookup_append_single_ne hne

theorem objLookup_objSet_self {o : List (String × String)} {k v' : String} :
    objLookup k (objSet o k v') = some v' := by
  unfold objSet
  split
  · exact objLookup_map_self (by assumption)
  · rename_i hany
    refine objLookup_append_single_self (fun p hp => ?_)
    intro hk
    exact hany (List.any_eq_true.mpr ⟨p, hp, by simp [hk]⟩)

theorem objLookup_foldl_of_not_mem {l : List (String × String)} {k : String} :
    ∀ {o : List (String × String)}, (∀ p ∈ l, p.1 ≠ k) →
    objLookup k (l.foldl (fun o p => objSet o p.1 p.2) o) = objLookup k o := by
  induction l with
  | nil => intro o _; rfl
  | cons q t ih =>
    intro o hl
    have hq : q.1 ≠ k := hl q (List.mem_cons_self _ _)
    have ht : ∀ p ∈ t, p.1 ≠ k := fun p hp => hl p (List.mem_cons_of_mem _ hp)
    calc objLookup k ((q :: t).foldl (fun o p => objSet o p.1 p.2) o)
        = objLookup k (t.foldl (fun o p => objSet o p.1 p.2)
            (objSet o q.1 q.2)) := rfl
      _ = objLookup k (objSet o q.1 q.2) := ih ht
      _ = objLookup k o := objLookup_objSet_ne hq

/-! ## The decimal representation of a natural number is never empty -/

theorem length_le_toDigitsCore (b : Nat) :
    ∀ (f n : Nat) (ds : List Char),
    ds.length ≤ (Nat.toDigitsCore b f n ds).length := by
  intro f
  induction f with
  | zero => intro n ds; exact Nat.le_refl _
  | succ f ih =>
    intro n ds
    simp only [Nat.toDigitsCore]
    split
    · exact Nat.le_succ _
    · exact Nat.le_trans (Nat.le_succ _)
        (ih (n / b) (Nat.digitChar (n % b) :: ds))

theorem one_le_length_toDigits (b n : Nat) :
    1 ≤ (Nat.toDigits b n).length := by
  simp only [Nat.toDigits, Nat.toDigitsCore]
  split
  · exact Nat.le_refl _
  · exact Nat.le_trans (Nat.le_refl 1)
      (length_le_toDigitsCore b _ _ [Nat.digitChar (n % b)])

theorem repr_ne_empty (n : Nat) : Nat.repr n ≠ "" := by
  intro h
  have hd : (Nat.toDigits 10 n) = [] := by
    simpa [Nat.repr, List.asString, String.ext_iff] using h
  have := one_le_length_toDigits 10 n
  rw [hd] at this
  simp at this

theorem stringifyVal_ne_empty {v : ParamVal} (h : keepParam v = true) :
    stringifyVal v ≠ "" := by
  cases v with
  | str s =>
    simp only [keepParam, bne_iff_ne, ne_eq, Bool.and_eq_true,
      decide_eq_true_eq] at h
    simpa [stringifyVal] using fun he => h.2 (by simp [he])
  | num n => exact repr_ne_empty n
  | undef => simp [keepParam] at h
  | nullv => simp [keepParam] at h

/-! ## Facts about the credential and about one fetch cycle -/

theorem getApiKey_ok_ne_empty {env : Env} {key : String}
    (h : getApiKey env = .ok key) : key ≠ "" := by
  unfold getApiKey at h
  split at h
  · exact absurd h (by simp)
  · split at h
    · exact absurd h (by simp)
    · rename_i s hs
      cases h
      exact hs

theorem fetchTourApi_of_ok {env : Env} {key : String}
    (endpoint : String) (params : List (String × ParamVal))
    (server : Nat → FetchOutcome) (h : getApiKey env = .ok key) :
    fetchTourApi env endpoint params server =
      match server 0 with
      | .networkFailure =>
        ⟨.error .networkError,
          [⟨endpoint, buildSearchParams key params⟩], []⟩
      | .response r =>
        ⟨processResponse r,
          [⟨endpoint, buildSearchParams key params⟩], []⟩ := by
  unfold fetchTourApi
  rw [h]

theorem fetchTourApi_of_missing {env : Env} {e : TourApiError}
    (endpoint : String) (params : List (String × ParamVal))
    (server : Nat → FetchOutcome) (h : getApiKey env = .error e) :
    fetchTourApi env endpoint params server = ⟨.error e, [], []⟩ := by
  unfold fetchTourApi
  rw [h]

theorem processResponse_status {r : HttpResponse}
    (h : ¬(200 ≤ r.status ∧ r.status ≤ 299)) :
    processResponse r = .error (.httpStatus r.status) := by
  unfold processResponse
  rw [if_neg h]

theorem processResponse_apiError {s : Nat} {code msg : String}
    {b : Option ResponseBody} (h200 : 200 ≤ s) (h299 : s ≤ 299)
    (hcode : code ≠ "0000") :
    processResponse ⟨s, ⟨⟨code, msg⟩, b⟩⟩ = .error (.apiError code msg) := by
  unfold processResponse
  rw [if_pos ⟨h200, h299⟩, if_pos hcode]

theorem processResponse_success {s : Nat} {msg : String} {b : ResponseBody}
    (h200 : 200 ≤ s) (h299 : s ≤ 299) :
    processResponse ⟨s, ⟨⟨"0000", msg⟩, some b⟩⟩ =
      .ok (normalizeItems b.item) := by
  unfold processResponse
  rw [if_pos ⟨h200, h299⟩, if_neg (by simp)]

/-- Every key/value pair in the built query comes from one of the entries:
the credential, a fixed common parameter, or a filtered call-specific
parameter. -/
theorem mem_buildSearchParams {apiKey : String}
    {params : List (String × ParamVal)} {kv : String × String}
    (h : kv ∈ buildSearchParams apiKey params) :
    kv = ("serviceKey", apiKey) ∨ kv ∈ COMMON_PARAMS ∨
      ∃ p ∈ params, keepParam p.2 = true ∧ kv = (p.1, stringifyVal p.2) := by
  have hm := mem_objOfEntries h
  simp only [paramEntries, List.cons_append, List.mem_cons,
    List.mem_append, List.mem_map, List.mem_filter] at hm
  rcases hm with hm | hm | ⟨p, ⟨hp, hkeep⟩, hpe⟩
  · exact Or.inl hm
  · exact Or.inr (Or.inl hm)
  · exact Or.inr (Or.inr ⟨p, hp, hkeep, hpe.symm⟩)

/-- Any request found in the trace of a call with a resolved credential is
the single request to the given endpoint with the built query. -/
theorem query_of_mem_requests {env : Env} {key endpoint : String}
    {params : List (String × ParamVal)} {server : Nat → FetchOutcome}
    {req : Request} (hkey : getApiKey env = .ok key)
    (hreq : req ∈ (fetchTourApi env endpoint params server).requests) :
    req = ⟨endpoint, buildSearchParams key params⟩ := by
  rw [fetchTourApi_of_ok endpoint params server hkey] at hreq
  cases hs : server 0 with
  | networkFailure => rw [hs] at hreq; simpa using hreq
  | response r => rw [hs] at hreq; simpa using hreq

/-- Every parameter added by an `if (x) params.k = x` assignment carries
the key `k`. -/
theorem key_of_mem_optionalParam {k : String} {o : Option String}
    {w : String × ParamVal} (h : w ∈ optionalParam k o) : w.1 = k := by
  cases o with
  | none => simp [optionalParam] at h
  | some s =>
    unfold optionalParam at h
    split at h <;> simp_all

/-- Every falsy non-array value normalizes to the empty list: the
truthiness test `items ? [items] : []` sends it to `[]`. -/
theorem normalizeItems_eq_nil_of_falsy {v : JVal}
    (hfalsy : jsTruthy v = false) (harr : isArray v = false) :
    normalizeItems v = [] := by
  cases v with
  | arr xs => simp [isArray] at harr
  | undef => rfl
  | null => rfl
  | bool b =>
    have h : normalizeItems (JVal.bool b) =
        if jsTruthy (JVal.bool b) then [JVal.bool b] else [] := rfl
    rw [h, hfalsy]
    rfl
  | num n =>
    have h : normalizeItems (JVal.num n) =
        if jsTruthy (JVal.num n) then [JVal.num n] else [] := rfl
    rw [h, hfalsy]
    rfl
  | str s =>
    have h : normalizeItems (JVal.str s) =
        if jsTruthy (JVal.str s) then [JVal.str s] else [] := rfl
    rw [h, hfalsy]
    rfl
  | obj fields =>
    have h : normalizeItems (JVal.obj fields) =
        if jsTruthy (JVal.obj fields) then [JVal.obj fields] else [] := rfl
    rw [h, hfalsy]
    rfl

/-! ## Claims -/

/-- C1 counterexample: with the credential configured and a server that
answers the first three attempts with HTTP 503 and the fourth with a 200
success carrying the payload `[{id:"A1"}]`, the client does NOT return the
successful payload: it propagates the 503 error from the single attempt it
makes, records no backoff sleep, and issues exactly one request. -/
theorem c1_counterexample :
    (fetchTourApi testEnv "/areaBasedList2" [] server503x3).result =
        .error (.httpStatus 503) ∧
      (fetchTourApi testEnv "/areaBasedList2" [] server503x3).result ≠
        .ok [JVal.obj [("id", JVal.str "A1")]] ∧
      (fetchTourApi testEnv "/areaBasedList2" [] server503x3).sleeps = [] ∧
      (fetchTourApi testEnv "/areaBasedList2" [] server503x3).requests.length
        = 1 := by
  refine ⟨rfl, ?_, rfl, rfl⟩
  intro h
  have h' : (Except.error (TourApiError.httpStatus 503) :
      Except TourApiError (List JVal)) =
      Except.ok [JVal.obj [("id", JVal.str "A1")]] := h
  exact Except.noConfusion h'

/-- C1 (amended): on a Transient-classified HTTP failure status
(429/500/502/503), the client makes exactly one attempt, performs no
backoff sleep, and immediately propagates the HTTP status error — there is
no retry loop, so a success available on a later attempt is never
observed. -/
theorem c1_single_attempt (env : Env) (key endpoint : String)
    (params : List (String × ParamVal)) (server : Nat → FetchOutcome)
    (r : HttpResponse) (hkey : getApiKey env = .ok key)
    (hsrv : server 0 = .response r)
    (hstatus : r.status = 429 ∨ r.status = 500 ∨ r.status = 502 ∨
      r.status = 503) :
    (fetchTourApi env endpoint params server).result =
        .error (.httpStatus r.status) ∧
      (fetchTourApi env endpoint params server).requests.length = 1 ∧
      (fetchTourApi env endpoint params server).sleeps = [] := by
  rw [fetchTourApi_of_ok endpoint params server hkey, hsrv]
  exact ⟨processResponse_status (by rcases hstatus with h | h | h | h <;>
    omega), rfl, rfl⟩

/-- C1 witness: the amended statement at the three-503s-then-success
server. -/
theorem c1_witness :
    (fetchTourApi testEnv "/areaBasedList2" [] server503x3).result =
        .error (.httpStatus 503) ∧
      (fetchTourApi testEnv "/areaBasedList2" [] server503x3).requests.length
        = 1 ∧
      (fetchTourApi testEnv "/areaBasedList2" [] server503x3).sleeps = [] :=
  c1_single_attempt testEnv "TESTKEY" "/areaBasedList2" [] server503x3
    ⟨503, ⟨⟨"0000", "OK"⟩, none⟩⟩ rfl rfl (by decide)

/-- C2: on a success envelope (`resultCode = "0000"`, body present) the
client returns the normalization of `body.items.item`, and the normalizer
yields `[]` for an absent or null item, the one-element list `[item]` for a
single object, and the array itself (order and length preserved) for an
array. -/
theorem c2_normalizer (env : Env) (key endpoint : String)
    (params : List (String × ParamVal)) (server : Nat → FetchOutcome)
    (s : Nat) (msg : String) (b : ResponseBody)
    (hkey : getApiKey env = .ok key)
    (hsrv : server 0 = .response ⟨s, ⟨⟨"0000", msg⟩, some b⟩⟩)
    (h200 : 200 ≤ s) (h299 : s ≤ 299) :
    (fetchTourApi env endpoint params server).result =
        .ok (normalizeItems b.item) ∧
      normalizeItems JVal.undef = [] ∧
      normalizeItems JVal.null = [] ∧
      (∀ fields, normalizeItems (JVal.obj fields) = [JVal.obj fields]) ∧
      (∀ xs, normalizeItems (JVal.arr xs) = xs) := by
  refine ⟨?_, rfl, rfl, fun _ => rfl, fun _ => rfl⟩
  rw [fetchTourApi_of_ok endpoint params server hkey, hsrv]
  exact processResponse_success h200 h299

/-- C2 witness: the scenario envelope
`{header:{resultCode:"0000"}, body:{items:{item:{id:"A1"}}, numOfRows:1,
pageNo:1, totalCount:1}}` decoded via the area-based listing yields
`[{id:"A1"}]`. -/
theorem c2_witness :
    (getAreaBasedList testEnv serverOk none none 1 1).result =
      .ok [JVal.obj [("id", JVal.str "A1")]] :=
  (c2_normalizer testEnv "TESTKEY" "/areaBasedList2"
    [("pageNo", ParamVal.num 1), ("numOfRows", ParamVal.num 1)] serverOk
    200 "OK" okBody rfl rfl (by decide) (by decide)).1

/-- C3 counterexample: the whitespace-only value `" "` survives the filter
(`value !== undefined && value !== null && value !== ""`) and is emitted in
the serialized query, so the query DOES contain a key with a
whitespace-only value. -/
theorem c3_counterexample :
    (fetchTourApi testEnv "/areaCode2" [("areaCode", ParamVal.str " ")]
        serverOk).requests =
      [⟨"/areaCode2",
        [("serviceKey", "TESTKEY"), ("MobileOS", "ETC"),
         ("MobileApp", "MyTrip"), ("_type", "json"), ("areaCode", " ")]⟩] ∧
    (" " : String) ≠ "" ∧ ∀ c ∈ (" " : String).data, c.isWhitespace := by
  exact ⟨rfl, by decide, by decide⟩

/-- C3 (amended): no key in the serialized query carries a null, undefined,
or empty-string value (all values are strings, the filter removes absent,
null and empty entries, and the credential and fixed parameters are
non-empty); whitespace-only values, however, are NOT filtered out. -/
theorem c3_no_empty_values (env : Env) (key endpoint : String)
    (params : List (String × ParamVal)) (server : Nat → FetchOutcome)
    (req : Request) (kv : String × String)
    (hkey : getApiKey env = .ok key)
    (hreq : req ∈ (fetchTourApi env endpoint params server).requests)
    (hkv : kv ∈ req.query) : kv.2 ≠ "" := by
  obtain rfl := query_of_mem_requests hkey hreq
  rcases mem_buildSearchParams hkv with h | h | ⟨p, _, hkeep, he⟩
  · rw [h]
    exact getApiKey_ok_ne_empty hkey
  · simp only [COMMON_PARAMS, List.mem_cons, List.not_mem_nil,
      or_false] at h
    rcases h with h | h | h <;> rw [h] <;> decide
  · rw [he]
    exact stringifyVal_ne_empty hkeep

/-- C3 witness: the amended statement applied to the `areaCode` entry of a
concrete query. -/
theorem c3_witness : (" " : String) ≠ "" :=
  c3_no_empty_values testEnv "TESTKEY" "/areaCode2"
    [("areaCode", ParamVal.str " ")] serverOk
    ⟨"/areaCode2",
      [("serviceKey", "TESTKEY"), ("MobileOS", "ETC"),
       ("MobileApp", "MyTrip"), ("_type", "json"), ("areaCode", " ")]⟩
    ("areaCode", " ") rfl (by decide) (by decide)

/-- C4 counterexample: a call-specific parameter named `serviceKey` DOES
override the configured credential, because the call-specific entries are
spread after the credential entry in the object literal: with credential
`TESTKEY`, passing `serviceKey: "ATTACKER"` yields a request whose
`serviceKey` value is `ATTACKER`, not `TESTKEY`. -/
theorem c4_counterexample :
    getApiKey testEnv = .ok "TESTKEY" ∧
    (fetchTourApi testEnv "/areaCode2"
        [("serviceKey", ParamVal.str "ATTACKER")] serverOk).requests =
      [⟨"/areaCode2",
        [("serviceKey", "ATTACKER"), ("MobileOS", "ETC"),
         ("MobileApp", "MyTrip"), ("_type", "json")]⟩] ∧
    ("ATTACKER" : String) ≠ "TESTKEY" := by
  exact ⟨rfl, rfl, by decide⟩

/-- C4 (amended): whenever the call-specific parameters contain no entry
named `serviceKey`, the `serviceKey` of the built request equals the
configured credential; a call-specific `serviceKey` entry, if present,
overrides it. -/
theorem c4_credential_preserved (env : Env) (key endpoint : String)
    (params : List (String × ParamVal)) (server : Nat → FetchOutcome)
    (req : Request) (hkey : getApiKey env = .ok key)
    (hparams : ∀ p ∈ params, p.1 ≠ "serviceKey")
    (hreq : req ∈ (fetchTourApi env endpoint params server).requests) :
    objLookup "serviceKey" req.query = some key := by
  obtain rfl := query_of_mem_requests hkey hreq
  show objLookup "serviceKey"
    ((COMMON_PARAMS ++ (params.filter (fun p => keepParam p.2)).map
        (fun p => (p.1, stringifyVal p.2))).foldl
      (fun o p => objSet o p.1 p.2) (objSet [] "serviceKey" key)) = some key
  rw [objLookup_foldl_of_not_mem]
  · rfl
  · intro p hp
    rcases List.mem_append.mp hp with hp | hp
    · simp only [COMMON_PARAMS, List.mem_cons, List.not_mem_nil,
        or_false] at hp
      rcases hp with hp | hp | hp <;> rw [hp] <;> decide
    · rcases List.mem_map.mp hp with ⟨q, hq, rfl⟩
      exact hparams q (List.mem_filter.mp hq).1

/-- C4 witness: the amended statement at a call that passes only an
`areaCode` parameter. -/
theorem c4_witness :
    objLookup "serviceKey"
      (buildSearchParams "TESTKEY" [("areaCode", ParamVal.str "1")]) =
      some "TESTKEY" :=
  c4_credential_preserved testEnv "TESTKEY" "/areaCode2"
    [("areaCode", ParamVal.str "1")] serverOk
    ⟨"/areaCode2", buildSearchParams "TESTKEY" [("areaCode", ParamVal.str "1")]⟩
    rfl (by decide) (by decide)

/-- C5: on a Fatal-classified HTTP failure status (any non-ok status other
than 429/500/502/503, e.g. 404), the client makes exactly one attempt,
performs no sleeps, and propagates the error carrying the HTTP status. -/
theorem c5_fatal_single_attempt (env : Env) (key endpoint : String)
    (params : List (String × ParamVal)) (server : Nat → FetchOutcome)
    (r : HttpResponse) (hkey : getApiKey env = .ok key)
    (hsrv : server 0 = .response r)
    (hnotok : ¬(200 ≤ r.status ∧ r.status ≤ 299))
    (_hfatal : r.status ≠ 429 ∧ r.status ≠ 500 ∧ r.status ≠ 502 ∧
      r.status ≠ 503) :
    (fetchTourApi env endpoint params server).result =
        .error (.httpStatus r.status) ∧
      (fetchTourApi env endpoint params server).requests.length = 1 ∧
      (fetchTourApi env endpoint params server).sleeps = [] := by
  rw [fetchTourApi_of_ok endpoint params server hkey, hsrv]
  exact ⟨processResponse_status hnotok, rfl, rfl⟩

/-- C5 witness: an HTTP 404 on the first attempt yields an immediate
status-404 error with exactly one attempt and zero sleeps. -/
theorem c5_witness :
    (fetchTourApi testEnv "/detailCommon2"
        [("contentId", ParamVal.str "X")] server404).result =
        .error (.httpStatus 404) ∧
      (fetchTourApi testEnv "/detailCommon2"
        [("contentId", ParamVal.str "X")] server404).requests.length = 1 ∧
      (fetchTourApi testEnv "/detailCommon2"
        [("contentId", ParamVal.str "X")] server404).sleeps = [] :=
  c5_fatal_single_attempt testEnv "TESTKEY" "/detailCommon2"
    [("contentId", ParamVal.str "X")] server404
    ⟨404, ⟨⟨"0000", "OK"⟩, none⟩⟩ rfl rfl (by decide) (by decide)

/-- C6: an envelope whose `resultCode` is not `"0000"` makes the client
raise the API error carrying that code and the result message, with a
single attempt and no sleeps; the result does not depend on the body
(which may be entirely absent). -/
theorem c6_api_error (env : Env) (key endpoint : String)
    (params : List (String × ParamVal)) (server : Nat → FetchOutcome)
    (s : Nat) (code msg : String) (b : Option ResponseBody)
    (hkey : getApiKey env = .ok key)
    (hsrv : server 0 = .response ⟨s, ⟨⟨code, msg⟩, b⟩⟩)
    (h200 : 200 ≤ s) (h299 : s ≤ 299) (hcode : code ≠ "0000") :
    (fetchTourApi env endpoint params server).result =
        .error (.apiError code msg) ∧
      (fetchTourApi env endpoint params server).requests.length = 1 ∧
      (fetchTourApi env endpoint params server).sleeps = [] := by
  rw [fetchTourApi_of_ok endpoint params server hkey, hsrv]
  exact ⟨processResponse_apiError h200 h299 hcode, rfl, rfl⟩

/-- C6 witness: an envelope with
`resultCode: "INVALID_REQUEST_PARAMETER_ERROR"` and no body yields the API
error with that code, one attempt, no sleeps. -/
theorem c6_witness :
    (fetchTourApi testEnv "/areaCode2" [] serverApiError).result =
        .error (.apiError "INVALID_REQUEST_PARAMETER_ERROR" "파라미터 오류") ∧
      (fetchTourApi testEnv "/areaCode2" [] serverApiError).requests.length
        = 1 ∧
      (fetchTourApi testEnv "/areaCode2" [] serverApiError).sleeps = [] :=
  c6_api_error testEnv "TESTKEY" "/areaCode2" [] serverApiError
    200 "INVALID_REQUEST_PARAMETER_ERROR" "파라미터 오류" none
    rfl rfl (by decide) (by decide) (by decide)

/-- C9: when neither credential environment variable holds a non-empty
value, every call fails with the missing-credential error and no request is
ever sent. -/
theorem c9_missing_credential (env : Env) (endpoint : String)
    (params : List (String × ParamVal)) (server : Nat → FetchOutcome)
    (h1 : env.nextPublicTourApiKey = none ∨ env.nextPublicTourApiKey =
      some "")
    (h2 : env.tourApiKey = none ∨ env.tourApiKey = some "") :
    (fetchTourApi env endpoint params server).result =
        .error .missingApiKey ∧
      (fetchTourApi env endpoint params server).requests = [] := by
  have hkey : getApiKey env = .error .missingApiKey := by
    unfold getApiKey jsOrString
    rcases h1 with h1 | h1 <;> rcases h2 with h2 | h2 <;> rw [h1, h2] <;>
      simp
  rw [fetchTourApi_of_missing endpoint params server hkey]
  exact ⟨rfl, rfl⟩

/-- C9 witness: with both environment variables unset, a call fails before
any network activity. -/
theorem c9_witness :
    (fetchTourApi ⟨none, none⟩ "/areaCode2" [] serverOk).result =
        .error .missingApiKey ∧
      (fetchTourApi ⟨none, none⟩ "/areaCode2" [] serverOk).requests = [] :=
  c9_missing_credential ⟨none, none⟩ "/areaCode2" [] serverOk
    (Or.inl rfl) (Or.inl rfl)

/-- C10: a success envelope whose `items.item` is any falsy non-array
value other than null/undefined (e.g. the empty string or the number 0,
but also `false`) decodes to the EMPTY list, not to a one-element list
containing that value. -/
theorem c10_falsy_item (env : Env) (key endpoint : String)
    (params : List (String × ParamVal)) (server : Nat → FetchOutcome)
    (s : Nat) (msg : String) (b : ResponseBody)
    (hkey : getApiKey env = .ok key)
    (hsrv : server 0 = .response ⟨s, ⟨⟨"0000", msg⟩, some b⟩⟩)
    (h200 : 200 ≤ s) (h299 : s ≤ 299)
    (hfalsy : jsTruthy b.item = false)
    (harr : isArray b.item = false)
    (_hnull : b.item ≠ JVal.null)
    (_hundef : b.item ≠ JVal.undef) :
    (fetchTourApi env endpoint params server).result =
        .ok ([] : List JVal) ∧
      (fetchTourApi env endpoint params server).result ≠ .ok [b.item] := by
  have hnorm : normalizeItems b.item = [] :=
    normalizeItems_eq_nil_of_falsy hfalsy harr
  have hres : (fetchTourApi env endpoint params server).result =
      .ok ([] : List JVal) := by
    rw [fetchTourApi_of_ok endpoint params server hkey, hsrv]
    exact (processResponse_success h200 h299).trans (by rw [hnorm])
  refine ⟨hres, ?_⟩
  rw [hres]
  simp

/-- C10 witness: an envelope with `items.item` equal to the empty string
yields the empty list. -/
theorem c10_witness :
    (fetchTourApi testEnv "/areaBasedList2" [] serverItemEmptyStr).result =
        .ok ([] : List JVal) ∧
      (fetchTourApi testEnv "/areaBasedList2" [] serverItemEmptyStr).result
        ≠ .ok [JVal.str ""] :=
  c10_falsy_item testEnv "TESTKEY" "/areaBasedList2" [] serverItemEmptyStr
    200 "OK" ⟨JVal.str "", 0, 1, 0⟩ rfl rfl (by decide) (by decide)
    rfl rfl (fun h => JVal.noConfusion h) (fun h => JVal.noConfusion h)

/-- C7: searching with an empty or whitespace-only keyword raises the
validation error without any request being sent; for a non-blank keyword,
the `keyword` sent in the query is the trimmed keyword. -/
theorem c7_search_keyword :
    (∀ env server a c p n,
      (searchKeyword env server "" a c p n).result =
          .error (.validationError "검색 키워드를 입력해주세요.") ∧
        (searchKeyword env server "" a c p n).requests = []) ∧
    (∀ env server a c p n,
      (searchKeyword env server "   " a c p n).result =
          .error (.validationError "검색 키워드를 입력해주세요.") ∧
        (searchKeyword env server "   " a c p n).requests = []) ∧
    (∀ env key server kw a c p n req,
      getApiKey env = .ok key → kw ≠ "" → jsTrim kw ≠ "" →
      req ∈ (searchKeyword env server kw a c p n).requests →
      objLookup "keyword" req.query = some (jsTrim kw)) := by
  refine ⟨fun _ _ _ _ _ _ => ⟨rfl, rfl⟩, fun _ _ _ _ _ _ => ⟨rfl, rfl⟩, ?_⟩
  intro env key server kw a c p n req hkey hkw htrim hreq
  rw [searchKeyword, if_neg (not_or.mpr ⟨hkw, htrim⟩)] at hreq
  obtain rfl := query_of_mem_requests hkey hreq
  show objLookup "keyword" (buildSearchParams key _) = _
  rw [buildSearchParams, paramEntries]
  simp only [List.cons_append, List.nil_append]
  rw [List.filter_cons_of_pos (by simp [keepParam, htrim])]
  rw [List.map_cons]
  show objLookup "keyword"
    (((([("pageNo", ParamVal.num p), ("numOfRows", ParamVal.num n)] ++
        optionalParam "areaCode" a ++ optionalParam "contentTypeId" c).filter
        (fun q => keepParam q.2)).map (fun q => (q.1, stringifyVal q.2))).foldl
      (fun o q => objSet o q.1 q.2)
      (objSet [("serviceKey", key), ("MobileOS", "ETC"),
        ("MobileApp", "MyTrip"), ("_type", "json")]
        "keyword" (jsTrim kw))) = some (jsTrim kw)
  rw [objLookup_foldl_of_not_mem]
  · exact objLookup_objSet_self
  · intro q hq
    rcases List.mem_map.mp hq with ⟨w, hw, rfl⟩
    have hw' := (List.mem_filter.mp hw).1
    simp only [List.cons_append, List.nil_append, List.mem_cons,
      List.mem_append] at hw'
    rcases hw' with rfl | rfl | hw' | hw'
    · simp
    · simp
    · simp [key_of_mem_optionalParam hw']
    · simp [key_of_mem_optionalParam hw']

/-- C7 witness: searching for `" seoul"` sends the trimmed keyword
`"seoul"`. -/
theorem c7_witness :
    objLookup "keyword"
      (buildSearchParams "TESTKEY"
        [("keyword", ParamVal.str "seoul"), ("pageNo", ParamVal.num 1),
         ("numOfRows", ParamVal.num 20)]) = some "seoul" :=
  c7_search_keyword.2.2 testEnv "TESTKEY" serverOk " seoul" none none 1 20
    ⟨"/searchKeyword2",
      buildSearchParams "TESTKEY"
        [("keyword", ParamVal.str "seoul"), ("pageNo", ParamVal.num 1),
         ("numOfRows", ParamVal.num 20)]⟩
    rfl (by decide) (by decide) (by decide)

/-- C8: fetching a detail with the empty `contentId` raises the validation
error without any request; a valid `contentId` whose success envelope
decodes to zero items raises the not-found error; and a non-empty decoded
list yields its first element. -/
theorem c8_get_detail :
    (∀ env server,
      (getTourDetail env server "").result =
          .error (.validationError "콘텐츠 ID가 필요합니다.") ∧
        (getTourDetail env server "").requests = []) ∧
    (∀ env key server cid s msg b,
      cid ≠ "" → getApiKey env = .ok key →
      server 0 = .response ⟨s, ⟨⟨"0000", msg⟩, some b⟩⟩ →
      200 ≤ s → s ≤ 299 → normalizeItems b.item = [] →
      (getTourDetail env server cid).result =
        .error (.notFoundError cid)) ∧
    (∀ env key server cid s msg b x xs,
      cid ≠ "" → getApiKey env = .ok key →
      server 0 = .response ⟨s, ⟨⟨"0000", msg⟩, some b⟩⟩ →
      200 ≤ s → s ≤ 299 → normalizeItems b.item = x :: xs →
      (getTourDetail env server cid).result = .ok x) := by
  refine ⟨fun _ _ => ⟨rfl, rfl⟩, ?_, ?_⟩
  · intro env key server cid s msg b hcid hkey hsrv h200 h299 hitems
    have ht : (fetchTourApi env "/detailCommon2"
        [("contentId", ParamVal.str cid)] server).result =
        .ok ([] : List JVal) := by
      rw [fetchTourApi_of_ok _ _ _ hkey, hsrv]
      exact (processResponse_success h200 h299).trans (by rw [hitems])
    simp only [getTourDetail, if_neg hcid]
    rw [ht]
  · intro env key server cid s msg b x xs hcid hkey hsrv h200 h299 hitems
    have ht : (fetchTourApi env "/detailCommon2"
        [("contentId", ParamVal.str cid)] server).result = .ok (x :: xs) := by
      rw [fetchTourApi_of_ok _ _ _ hkey, hsrv]
      exact (processResponse_success h200 h299).trans (by rw [hitems])
    simp only [getTourDetail, if_neg hcid]
    rw [ht]

/-- C8 witness: a valid `contentId` against an envelope with zero items
raises the not-found error. -/
theorem c8_witness :
    (getTourDetail testEnv serverEmptyItems "valid-id").result =
      .error (.notFoundError "valid-id") :=
  c8_get_detail.2.1 testEnv "TESTKEY" serverEmptyItems "valid-id" 200 "OK"
    ⟨JVal.undef, 0, 1, 0⟩ (by decide) rfl rfl (by decide) (by decide) rfl

end TourApi
